import Mathlib

/-!
Verification of the spreadsheet-to-JSON converter in
scripts/convert-excel-to-json.py.

The script reads the sheet named PLACEMENTS of a workbook, iterates the
row ranges 3..13 and 19..29, and builds a mapping from slot-pattern cell
values to per-bidder parameter sets, together with a static publisher
record.  We embed cell values as an inductive type (Python None, str,
int, float, bool -- floats are modelled as rationals, which is faithful
for the three operations the script applies to them: int truncation,
bool truthiness, and the non-emptiness of their str form), a worksheet
as a function from 1-based row index and 0-based cell index to values,
and the in-progress dict as an insertion-ordered association list.
-/

set_option autoImplicit false

namespace Convert

/-- A spreadsheet cell value as produced by openpyxl with data_only:
Python None, str, int, float or bool.  Floats are modelled as
rationals. -/
inductive Value where
  | none
  | str (s : String)
  | int (n : Int)
  | float (q : Rat)
  | bool (b : Bool)
  deriving DecidableEq, Repr

/-- Python truthiness, as used by the checks "if not slot_pattern" and
"bool(value)": None and empty string and numeric zero and False are
falsy, everything else here is truthy. -/
def pyBool : Value → Bool
  | .none => false
  | .str s => s ≠ ""
  | .int n => n ≠ 0
  | .float q => q ≠ 0
  | .bool b => b

/-- Python str() of a cell value, as used by the presence check
str(value).strip() != "".  The exact digits of the numeric forms are
irrelevant to the script; what matters is that they are never empty or
whitespace-only. -/
def pyStr : Value → String
  | .none => "None"
  | .str s => s
  | .int n => toString n
  | .float q => toString q
  | .bool b => if b then "True" else "False"

/-- Python str.strip(): drop whitespace from both ends. -/
def pyStrip (s : String) : String :=
  String.mk (((s.data.dropWhile Char.isWhitespace).reverse.dropWhile Char.isWhitespace).reverse)

/-- The presence test of line 66 of the script:
value is not None and str(value).strip() != "". -/
def cellPresent (value : Value) : Bool :=
  value ≠ Value.none && pyStrip (pyStr value) ≠ ""

/-- Python int() applied to a float: truncation toward zero.  On the
rational model this is T-division of the numerator by the denominator. -/
def pyIntOfFloat (q : Rat) : Int :=
  q.num.tdiv (q.den : Int)

/-- A JSON-ready output value.  The null constructor is the image of
Value.none; it is unreachable because every caller first filters by
cellPresent. -/
inductive JValue where
  | str (s : String)
  | int (n : Int)
  | bool (b : Bool)
  | null
  deriving DecidableEq, Repr

/-- The coercion of lines 67-75 of the script: a float that is not the
bidonmultiformat parameter becomes int(value); the bidonmultiformat
parameter becomes bool(value); every other value is stored unchanged. -/
def coerce (param_name : String) : Value → JValue
  | .float q =>
      if param_name = "bidonmultiformat" then .bool (pyBool (.float q))
      else .int (pyIntOfFloat q)
  | .str s => if param_name = "bidonmultiformat" then .bool (pyBool (.str s)) else .str s
  | .int n => if param_name = "bidonmultiformat" then .bool (pyBool (.int n)) else .int n
  | .bool b => if param_name = "bidonmultiformat" then .bool (pyBool (.bool b)) else .bool b
  | .none => if param_name = "bidonmultiformat" then .bool (pyBool .none) else .null

/-- A worksheet row: 0-based cell index to value (row[i].value). -/
abbrev Row := Nat → Value

/-- A worksheet: 1-based row index to row (sheet[row_idx]). -/
abbrev Sheet := Nat → Row

/-- A parameter set of one bidder, in insertion order. -/
abbrev BidderParams := List (String × JValue)

/-- One ad unit: bidder name to parameter set, in insertion order. -/
abbrev AdUnit := List (String × BidderParams)

/-- The static publisher record of lines 10-14. -/
structure Publisher where
  publisherId : String
  domain : String
  defaultBidders : List String
  deriving DecidableEq, Repr

/-- The result mapping: publisher record plus the adUnits dict, keyed by
the raw slot-pattern cell value, in insertion order. -/
structure Mapping where
  publisher : Publisher
  adUnits : List (Value × AdUnit)
  deriving DecidableEq, Repr

/-- A workbook: named sheets, as consulted by wb[sheet_name]. -/
structure Workbook where
  sheets : List (String × Sheet)

/-- The bidder_columns table of lines 19-45: for each of the seven
bidders, parameter names with their 1-based column indices. -/
def bidder_columns : List (String × List (String × Nat)) :=
  [("rubicon", [("accountId", 6), ("siteId", 7), ("zoneId", 8), ("bidonmultiformat", 9)]),
   ("kargo", [("placementId", 10)]),
   ("sovrn", [("tagid", 11)]),
   ("oms", [("publisherId", 12)]),
   ("aniview", [("publisherId", 14), ("channelId", 15)]),
   ("pubmatic", [("publisherId", 16), ("adSlot", 17)]),
   ("triplelift", [("inventoryCode", 18)])]

/-- The inner loop of lines 64-73: walk the parameter columns of one
bidder in order, keeping each present cell after coercion.  The has_data
flag of the script is true exactly when the resulting list is nonempty. -/
def extractBidderParams (row : Row) : List (String × Nat) → BidderParams
  | [] => []
  | (param_name, col_idx) :: rest =>
      if cellPresent (row (col_idx - 1)) then
        (param_name, coerce param_name (row (col_idx - 1))) :: extractBidderParams row rest
      else extractBidderParams row rest

/-- The bidder loop of lines 63-78 over an arbitrary bidder table:
record a bidder only when it had at least one present parameter. -/
def extractAdUnitAux (row : Row) : List (String × List (String × Nat)) → AdUnit
  | [] => []
  | (bidder, columns) :: rest =>
      if extractBidderParams row columns = [] then extractAdUnitAux row rest
      else (bidder, extractBidderParams row columns) :: extractAdUnitAux row rest

/-- The ad_unit_config built for one row by lines 60-78. -/
def extractAdUnit (row : Row) : AdUnit :=
  extractAdUnitAux row bidder_columns

/-- The row indices of line 49: list(range(3, 14)) + list(range(19, 30)). -/
def rowIndices : List Nat :=
  List.range' 3 11 ++ List.range' 19 11

/-- The body of one iteration of the row loop, lines 50-82: skip when
the slot-pattern cell is falsy or the header text, skip when the slot
pattern is already a key, otherwise record the extracted config when it
is nonempty. -/
def processRow (sheet : Sheet) (row_idx : Nat) (adUnits : List (Value × AdUnit)) :
    List (Value × AdUnit) :=
  if pyBool (sheet row_idx 0) = false ∨ sheet row_idx 0 = Value.str "Slot Pattern" then
    adUnits
  else if sheet row_idx 0 ∈ adUnits.map Prod.fst then
    adUnits
  else if extractAdUnit (sheet row_idx) = [] then
    adUnits
  else
    adUnits ++ [(sheet row_idx 0, extractAdUnit (sheet row_idx))]

/-- The row loop of lines 49-82, threading the adUnits dict. -/
def processRowsAux (sheet : Sheet) : List Nat → List (Value × AdUnit) → List (Value × AdUnit)
  | [], adUnits => adUnits
  | row_idx :: rest, adUnits => processRowsAux sheet rest (processRow sheet row_idx adUnits)

/-- The adUnits dict produced from the PLACEMENTS sheet. -/
def convert_rows (sheet : Sheet) : List (Value × AdUnit) :=
  processRowsAux sheet rowIndices []

/-- The static publisher record of lines 10-14. -/
def publisherRecord : Publisher :=
  { publisherId := "icisic-media"
    domain := "totalprosports.com"
    defaultBidders := ["rubicon", "kargo", "sovrn", "oms", "aniview", "pubmatic", "triplelift"] }

/-- Sheet selection: wb[name] raises KeyError when absent; here the
miss is surfaced as none. -/
def findSheet : List (String × Sheet) → String → Option Sheet
  | [], _ => Option.none
  | (n, s) :: rest, name => if n = name then Option.some s else findSheet rest name

/-- convert_excel_to_json of lines 5-84, over an already-loaded
workbook: select the PLACEMENTS sheet (a miss propagates as an error),
then build the mapping. -/
def convert_excel_to_json (wb : Workbook) : Except String Mapping :=
  match findSheet wb.sheets "PLACEMENTS" with
  | Option.none => Except.error "KeyError: PLACEMENTS"
  | Option.some sheet => Except.ok { publisher := publisherRecord, adUnits := convert_rows sheet }

/-- Dict lookup in the adUnits association list (first binding wins,
mirroring dict key uniqueness). -/
def lookupUnit : List (Value × AdUnit) → Value → Option AdUnit
  | [], _ => Option.none
  | (k, v) :: rest, slot => if k = slot then Option.some v else lookupUnit rest slot

/-- The sampling step of line 104 of the main block:
list(mapping[adUnits].keys())[0].  Indexing an empty list raises
IndexError, surfaced here as none; the script has no guard for it. -/
def firstAdUnitSample (mapping : Mapping) : Option Value :=
  (mapping.adUnits.map Prod.fst).get? 0

/-- True when the given JSON value occurs anywhere among the parameter
values of the adUnits list. -/
def jvalOccurs (v : JValue) (units : List (Value × AdUnit)) : Bool :=
  units.any fun u => u.2.any fun bp => bp.2.any fun p => p.2 = v

/-- A sheet whose cells are all empty. -/
def emptySheet : Sheet := fun _ _ => Value.none

/-- A sheet where the first row bearing slot pattern X (row 3) has no
bidder data and the second row bearing it (row 4) has one kargo cell
(column J, 0-based index 9). -/
def dupSheet : Sheet := fun r c =>
  if r = 3 ∧ c = 0 then .str "X"
  else if r = 4 ∧ c = 0 then .str "X"
  else if r = 4 ∧ c = 9 then .str "p"
  else .none

/-- The fixture workbook sheet: exactly three populated rows, slots A
(rubicon accountId as the float 1001), B (kargo placementId), and a
duplicate of A carrying a sovrn tagid that should be discarded. -/
def fixtureSheet : Sheet := fun r c =>
  if r = 3 ∧ c = 0 then .str "A"
  else if r = 3 ∧ c = 5 then .float 1001
  else if r = 4 ∧ c = 0 then .str "B"
  else if r = 4 ∧ c = 9 then .str "k-b"
  else if r = 5 ∧ c = 0 then .str "A"
  else if r = 5 ∧ c = 10 then .str "DUPVALUE"
  else .none

/-- A sheet whose row 3 has a whitespace-only slot pattern and one
kargo cell. -/
def wsSheet : Sheet := fun r c =>
  if r = 3 ∧ c = 0 then .str "   "
  else if r = 3 ∧ c = 9 then .str "k"
  else .none

/-- A workbook holding only an empty PLACEMENTS sheet. -/
def wbEmpty : Workbook := { sheets := [("PLACEMENTS", emptySheet)] }

/-- A workbook with no sheet named PLACEMENTS. -/
def wbOther : Workbook := { sheets := [("OTHER", emptySheet)] }

/-- The mapping produced from the empty PLACEMENTS sheet. -/
def mEmpty : Mapping := { publisher := publisherRecord, adUnits := [] }

/-! ## Helper lemmas -/

/-- The parameter list of a bidder is empty exactly when none of its
cells is present. -/
lemma extractBidderParams_eq_nil_iff (row : Row) (cols : List (String × Nat)) :
    extractBidderParams row cols = [] ↔
      ∀ pc ∈ cols, cellPresent (row (pc.2 - 1)) = false := by
  induction cols with
  | nil => simp [extractBidderParams]
  | cons pc rest ih =>
    obtain ⟨p, c⟩ := pc
    by_cases h : cellPresent (row (c - 1)) = true
    · simp [extractBidderParams, h]
    · simp only [Bool.not_eq_true] at h
      simp [extractBidderParams, h, ih]

/-- Membership among the bidder keys produced by the bidder loop. -/
lemma mem_extractAdUnitAux_keys (row : Row) (L : List (String × List (String × Nat)))
    (b : String) :
    b ∈ (extractAdUnitAux row L).map Prod.fst ↔
      ∃ cols, (b, cols) ∈ L ∧ extractBidderParams row cols ≠ [] := by
  induction L with
  | nil => simp [extractAdUnitAux]
  | cons bc rest ih =>
    obtain ⟨b', cols'⟩ := bc
    by_cases h : extractBidderParams row cols' = []
    · simp only [extractAdUnitAux, if_pos h, ih, List.mem_cons, Prod.mk.injEq]
      constructor
      · rintro ⟨cols, hm, hne⟩
        exact ⟨cols, Or.inr hm, hne⟩
      · rintro ⟨cols, hm | hm, hne⟩
        · obtain ⟨hb, hc⟩ := hm
          exact absurd (hc ▸ h) hne
        · exact ⟨cols, hm, hne⟩
    · simp only [extractAdUnitAux, if_neg h, List.map_cons, List.mem_cons, ih,
        Prod.mk.injEq]
      constructor
      · rintro (hb | ⟨cols, hm, hne⟩)
        · exact ⟨cols', Or.inl ⟨hb, rfl⟩, h⟩
        · exact ⟨cols, Or.inr hm, hne⟩
      · rintro ⟨cols, ⟨hb, hc⟩ | hm, hne⟩
        · exact Or.inl hb
        · exact Or.inr ⟨cols, hm, hne⟩

/-- The ad unit config of a row is empty exactly when every bidder has
an empty parameter list. -/
lemma extractAdUnitAux_eq_nil_iff (row : Row) (L : List (String × List (String × Nat))) :
    extractAdUnitAux row L = [] ↔
      ∀ bc ∈ L, extractBidderParams row bc.2 = [] := by
  induction L with
  | nil => simp [extractAdUnitAux]
  | cons bc rest ih =>
    obtain ⟨b', cols'⟩ := bc
    by_cases h : extractBidderParams row cols' = []
    · simp [extractAdUnitAux, h, ih]
    · simp [extractAdUnitAux, h]

/-- In the bidder_columns table, a bidder name determines its column
list. -/
lemma bidder_columns_name_unique :
    ∀ p ∈ bidder_columns, ∀ q ∈ bidder_columns, p.1 = q.1 → p.2 = q.2 := by
  decide

/-- One loop iteration either leaves adUnits unchanged or appends the
extracted config of a slot pattern that was not yet a key. -/
lemma processRow_cases (sheet : Sheet) (row_idx : Nat) (adUnits : List (Value × AdUnit)) :
    processRow sheet row_idx adUnits = adUnits ∨
      (sheet row_idx 0 ∉ adUnits.map Prod.fst ∧
        processRow sheet row_idx adUnits =
          adUnits ++ [(sheet row_idx 0, extractAdUnit (sheet row_idx))]) := by
  unfold processRow
  split
  · exact Or.inl rfl
  · split
    · exact Or.inl rfl
    · split
      · exact Or.inl rfl
      · rename_i h2 _
        exact Or.inr ⟨h2, rfl⟩

/-- One loop iteration never removes a key from adUnits. -/
lemma mem_keys_processRow (sheet : Sheet) (row_idx : Nat) (adUnits : List (Value × AdUnit))
    (slot : Value) (h : slot ∈ adUnits.map Prod.fst) :
    slot ∈ (processRow sheet row_idx adUnits).map Prod.fst := by
  rcases processRow_cases sheet row_idx adUnits with he | ⟨_, he⟩
  · rw [he]; exact h
  · rw [he, List.map_append]; exact List.mem_append_left _ h

/-- Appending bindings does not change the lookup of a key that is
already bound. -/
lemma lookupUnit_append_of_mem (acc l : List (Value × AdUnit)) (slot : Value)
    (h : slot ∈ acc.map Prod.fst) :
    lookupUnit (acc ++ l) slot = lookupUnit acc slot := by
  induction acc with
  | nil => simp at h
  | cons kv rest ih =>
    obtain ⟨k, v⟩ := kv
    by_cases hk : k = slot
    · simp [lookupUnit, hk]
    · simp only [List.map_cons, List.mem_cons] at h
      rcases h with h | h

      · exact absurd h.symm hk
      · simp [lookupUnit, hk, ih h]

/-! ## Claim theorems -/

/-- C1: for every processed row and every configured bidder, the bidder
key appears in the extracted ad-unit object if and only if at least one
of its configured parameter cells holds a present (non-empty, not
whitespace-only) value. -/
theorem C1_bidder_key_iff (row : Row) (bidder : String) (cols : List (String × Nat))
    (hmem : (bidder, cols) ∈ bidder_columns) :
    bidder ∈ (extractAdUnit row).map Prod.fst ↔
      ∃ pc ∈ cols, cellPresent (row (pc.2 - 1)) = true := by
  rw [extractAdUnit, mem_extractAdUnitAux_keys]
  constructor
  · rintro ⟨cols', hmem', hne⟩
    have hc : cols' = cols :=
      bidder_columns_name_unique (bidder, cols') hmem' (bidder, cols) hmem rfl
    subst hc
    simp only [ne_eq, extractBidderParams_eq_nil_iff] at hne
    push_neg at hne
    obtain ⟨pc, hpc, hval⟩ := hne
    exact ⟨pc, hpc, by simpa using hval⟩
  · rintro ⟨pc, hpc, hval⟩
    refine ⟨cols, hmem, ?_⟩
    simp only [ne_eq, extractBidderParams_eq_nil_iff]
    push_neg
    exact ⟨pc, hpc, by simp [hval]⟩

/-- Witness for C1 at the rubicon bidder and a row whose accountId cell
holds 100. -/
theorem C1_witness :
    (("rubicon", [("accountId", 6), ("siteId", 7), ("zoneId", 8), ("bidonmultiformat", 9)])
        ∈ bidder_columns) ∧
      ("rubicon" ∈ (extractAdUnit (fixtureSheet 3)).map Prod.fst ↔
        ∃ pc ∈ [("accountId", 6), ("siteId", 7), ("zoneId", 8), ("bidonmultiformat", 9)],
          cellPresent (fixtureSheet 3 (pc.2 - 1)) = true) :=
  ⟨by decide, C1_bidder_key_iff (fixtureSheet 3) "rubicon" _ (by decide)⟩

/-- Whether a cell value is numeric (a Python int or float). -/
def Value.isNumeric : Value → Bool
  | .int _ => true
  | .float _ => true
  | _ => false

/-- C2: a numeric parameter cell is emitted as an integer, except the
bidonmultiformat parameter, which is emitted as the truthiness of the
cell value. -/
theorem C2_numeric_coercion (param_name : String) (value : Value)
    (hnum : value.isNumeric = true) :
    (param_name ≠ "bidonmultiformat" → ∃ n : Int, coerce param_name value = JValue.int n) ∧
      (param_name = "bidonmultiformat" → coerce param_name value = JValue.bool (pyBool value)) := by
  cases value with
  | int n =>
    exact ⟨fun h => ⟨n, by simp [coerce, h]⟩, fun h => by simp [coerce, h]⟩
  | float q =>
    exact ⟨fun h => ⟨pyIntOfFloat q, by simp [coerce, h]⟩, fun h => by simp [coerce, h]⟩
  | none => simp [Value.isNumeric] at hnum
  | str s => simp [Value.isNumeric] at hnum
  | bool b => simp [Value.isNumeric] at hnum

/-- Witness for C2 at the siteId parameter and the float 7/2. -/
theorem C2_witness :
    (Value.float (7 / 2)).isNumeric = true ∧
      (("siteId" ≠ "bidonmultiformat" →
          ∃ n : Int, coerce "siteId" (Value.float (7 / 2)) = JValue.int n) ∧
        ("siteId" = "bidonmultiformat" →
          coerce "siteId" (Value.float (7 / 2)) = JValue.bool (pyBool (Value.float (7 / 2))))) :=
  ⟨by decide, C2_numeric_coercion "siteId" (Value.float (7 / 2)) (by decide)⟩

/-- C3 counterexample: on dupSheet the slot pattern X occurs in two
iterated rows and its first-iterated occurrence is row 3, yet the
recorded entry is the kargo config of row 4, while the data extracted
from row 3 is empty -- so the entry does not hold the first-iterated
occurrence data, and the later occurrence is what got recorded. -/
theorem C3_counterexample :
    (rowIndices.filter (fun i => decide (dupSheet i 0 = Value.str "X"))).length ≥ 2 ∧
      rowIndices.find? (fun i => decide (dupSheet i 0 = Value.str "X")) = some 3 ∧
      lookupUnit (convert_rows dupSheet) (Value.str "X") =
        some [("kargo", [("placementId", JValue.str "p")])] ∧
      extractAdUnit (dupSheet 3) = [] ∧
      some [("kargo", [("placementId", JValue.str "p")])] ≠
        some (extractAdUnit (dupSheet 3)) := by
  refine ⟨by decide, by decide, by decide, by decide, by decide⟩

/-- C3 amended: once a slot pattern has been recorded in adUnits,
processing any further rows leaves its entry unchanged -- later rows
bearing that pattern are discarded silently.  (The first-iterated row
bearing a pattern is skipped without recording when its extracted
config is empty, so it is the first recorded occurrence, not the first
occurrence, that wins.) -/
theorem C3_first_recorded_wins (sheet : Sheet) (rest : List Nat)
    (acc : List (Value × AdUnit)) (slot : Value) (h : slot ∈ acc.map Prod.fst) :
    lookupUnit (processRowsAux sheet rest acc) slot = lookupUnit acc slot := by
  induction rest generalizing acc with
  | nil => rfl
  | cons row_idx rest ih =>
    rw [processRowsAux, ih _ (mem_keys_processRow sheet row_idx acc slot h)]
    rcases processRow_cases sheet row_idx acc with he | ⟨_, he⟩
    · rw [he]
    · rw [he, lookupUnit_append_of_mem _ _ _ h]

/-- Witness for the amended C3: with the X entry already recorded,
running the loop over the remaining rows of dupSheet leaves its entry
unchanged. -/
theorem C3_first_recorded_wins_witness :
    (Value.str "X" ∈
        ([(Value.str "X", [("kargo", [("placementId", JValue.str "p")])])].map Prod.fst
          : List Value)) ∧
      lookupUnit
          (processRowsAux dupSheet [4, 5, 6]
            [(Value.str "X", [("kargo", [("placementId", JValue.str "p")])])])
          (Value.str "X") =
        lookupUnit [(Value.str "X", [("kargo", [("placementId", JValue.str "p")])])]
          (Value.str "X") :=
  ⟨by decide,
    C3_first_recorded_wins dupSheet [4, 5, 6]
      [(Value.str "X", [("kargo", [("placementId", JValue.str "p")])])]
      (Value.str "X") (by decide)⟩

/-- C4: a row whose slot-pattern cell is empty (Python None or the
empty string) or the literal header text contributes nothing. -/
theorem C4_skip_empty_or_header (sheet : Sheet) (row_idx : Nat)
    (adUnits : List (Value × AdUnit))
    (h : sheet row_idx 0 = Value.none ∨ sheet row_idx 0 = Value.str "" ∨
      sheet row_idx 0 = Value.str "Slot Pattern") :
    processRow sheet row_idx adUnits = adUnits := by
  unfold processRow
  rcases h with h | h | h <;> rw [h] <;> simp [pyBool]

/-- Witness for C4: row 6 of dupSheet has an empty slot cell and is
skipped. -/
theorem C4_witness :
    (dupSheet 6 0 = Value.none ∨ dupSheet 6 0 = Value.str "" ∨
        dupSheet 6 0 = Value.str "Slot Pattern") ∧
      processRow dupSheet 6 [(Value.str "X", [("kargo", [("placementId", JValue.str "p")])])] =
        [(Value.str "X", [("kargo", [("placementId", JValue.str "p")])])] :=
  ⟨by decide,
    C4_skip_empty_or_header dupSheet 6
      [(Value.str "X", [("kargo", [("placementId", JValue.str "p")])])] (by decide)⟩

/-- C5: on the three-row fixture sheet (slots A, B and a duplicate of A
carrying the sovrn tag DUPVALUE), the output has exactly the two keys A
and B, and no parameter value of the duplicate row appears anywhere in
the result. -/
theorem C5_fixture_roundtrip :
    (convert_rows fixtureSheet).map Prod.fst = [Value.str "A", Value.str "B"] ∧
      (convert_rows fixtureSheet).length = 2 ∧
      convert_rows fixtureSheet =
        [(Value.str "A", [("rubicon", [("accountId", JValue.int 1001)])]),
         (Value.str "B", [("kargo", [("placementId", JValue.str "k-b")])])] ∧
      jvalOccurs (JValue.str "DUPVALUE") (convert_rows fixtureSheet) = false := by
  refine ⟨by decide, by decide, by decide, by decide⟩

/-- C6: whatever workbook is converted, the publisher record of the
result is the static one fixed at construction, with the seven default
bidders in their fixed order. -/
theorem C6_publisher_static (wb : Workbook) (m : Mapping)
    (h : convert_excel_to_json wb = Except.ok m) :
    m.publisher =
      { publisherId := "icisic-media"
        domain := "totalprosports.com"
        defaultBidders :=
          ["rubicon", "kargo", "sovrn", "oms", "aniview", "pubmatic", "triplelift"] } := by
  unfold convert_excel_to_json at h
  split at h
  · exact Except.noConfusion h
  · injection h with h
    subst h
    rfl

/-- Witness for C6 at the workbook holding only an empty PLACEMENTS
sheet. -/
theorem C6_witness :
    convert_excel_to_json wbEmpty = Except.ok mEmpty ∧
      mEmpty.publisher =
        { publisherId := "icisic-media"
          domain := "totalprosports.com"
          defaultBidders :=
            ["rubicon", "kargo", "sovrn", "oms", "aniview", "pubmatic", "triplelift"] } :=
  ⟨rfl, C6_publisher_static wbEmpty mEmpty rfl⟩

/-- C7: a row that passes the slot checks (truthy slot cell, not the
header, not yet recorded) is recorded exactly when at least one bidder
extracted a nonempty parameter set; a row where no bidder has data
contributes no entry. -/
theorem C7_recorded_iff_bidder_data (sheet : Sheet) (row_idx : Nat)
    (adUnits : List (Value × AdUnit))
    (h1 : pyBool (sheet row_idx 0) = true)
    (h2 : sheet row_idx 0 ≠ Value.str "Slot Pattern")
    (h3 : sheet row_idx 0 ∉ adUnits.map Prod.fst) :
    sheet row_idx 0 ∈ (processRow sheet row_idx adUnits).map Prod.fst ↔
      ∃ bc ∈ bidder_columns, extractBidderParams (sheet row_idx) bc.2 ≠ [] := by
  unfold processRow
  rw [if_neg (by simp [h1, h2]), if_neg h3]
  by_cases hcfg : extractAdUnit (sheet row_idx) = []
  · rw [if_pos hcfg]
    constructor
    · intro hmem
      exact absurd hmem h3
    · rintro ⟨bc, hbc, hne⟩
      rw [extractAdUnit, extractAdUnitAux_eq_nil_iff] at hcfg
      exact absurd (hcfg bc hbc) hne
  · rw [if_neg hcfg]
    constructor
    · intro _
      simp only [ne_eq, extractAdUnit, extractAdUnitAux_eq_nil_iff] at hcfg
      push_neg at hcfg
      exact hcfg
    · intro _
      simp

/-- Witness for C7 at row 3 of the fixture sheet over an empty
accumulator. -/
theorem C7_witness :
    (pyBool (fixtureSheet 3 0) = true ∧ fixtureSheet 3 0 ≠ Value.str "Slot Pattern" ∧
        fixtureSheet 3 0 ∉ ([] : List (Value × AdUnit)).map Prod.fst) ∧
      (fixtureSheet 3 0 ∈ (processRow fixtureSheet 3 []).map Prod.fst ↔
        ∃ bc ∈ bidder_columns, extractBidderParams (fixtureSheet 3) bc.2 ≠ []) :=
  ⟨⟨by decide, by decide, by simp⟩,
    C7_recorded_iff_bidder_data fixtureSheet 3 [] (by decide) (by decide) (by simp)⟩

/-- Sheet lookup misses when no sheet bears the requested name. -/
lemma findSheet_eq_none (sheets : List (String × Sheet)) (name : String)
    (h : ∀ p ∈ sheets, p.1 ≠ name) :
    findSheet sheets name = Option.none := by
  induction sheets with
  | nil => rfl
  | cons p rest ih =>
    obtain ⟨n, s⟩ := p
    have hn : n ≠ name := h (n, s) (List.mem_cons_self _ _)
    simp only [findSheet, if_neg hn]
    exact ih fun q hq => h q (List.mem_cons_of_mem _ hq)

/-- C8: a workbook with no sheet named PLACEMENTS makes the converter
fail at the sheet-selection step; no mapping is returned. -/
theorem C8_missing_sheet_faults (wb : Workbook)
    (h : ∀ p ∈ wb.sheets, p.1 ≠ "PLACEMENTS") :
    convert_excel_to_json wb = Except.error "KeyError: PLACEMENTS" := by
  unfold convert_excel_to_json
  rw [findSheet_eq_none wb.sheets "PLACEMENTS" h]

/-- Witness for C8 at a workbook whose only sheet is named OTHER. -/
theorem C8_witness :
    (∀ p ∈ wbOther.sheets, p.1 ≠ "PLACEMENTS") ∧
      convert_excel_to_json wbOther = Except.error "KeyError: PLACEMENTS" :=
  ⟨by decide, C8_missing_sheet_faults wbOther (by decide)⟩

/-- C9: a whitespace-only (but non-empty) slot-pattern string passes
both skip checks -- the slot cell is never stripped -- and, when some
bidder has data and the pattern is new, the whitespace-only string
itself becomes a key of adUnits. -/
theorem C9_whitespace_slot_becomes_key (sheet : Sheet) (row_idx : Nat)
    (adUnits : List (Value × AdUnit)) (s : String)
    (hs : sheet row_idx 0 = Value.str s) (hne : s ≠ "") (hws : pyStrip s = "")
    (hdata : extractAdUnit (sheet row_idx) ≠ [])
    (hnew : Value.str s ∉ adUnits.map Prod.fst) :
    (pyBool (sheet row_idx 0) = true ∧ sheet row_idx 0 ≠ Value.str "Slot Pattern") ∧
      Value.str s ∈ (processRow sheet row_idx adUnits).map Prod.fst := by
  have hh : s ≠ "Slot Pattern" := by
    intro he
    subst he
    exact absurd hws (by decide)
  have hpb : pyBool (sheet row_idx 0) = true := by
    rw [hs]
    simp [pyBool, hne]
  have hnh : sheet row_idx 0 ≠ Value.str "Slot Pattern" := by
    rw [hs]
    simpa using hh
  refine ⟨⟨hpb, hnh⟩, ?_⟩
  unfold processRow
  rw [hs] at hpb hnh ⊢
  rw [if_neg (by simp [hpb, hnh]), if_neg hnew, if_neg hdata]
  simp

/-- Witness for C9 at the sheet whose row 3 has the slot cell holding
three spaces and one kargo cell. -/
theorem C9_witness :
    ((pyBool (wsSheet 3 0) = true ∧ wsSheet 3 0 ≠ Value.str "Slot Pattern") ∧
      Value.str "   " ∈ (processRow wsSheet 3 []).map Prod.fst) :=
  C9_whitespace_slot_becomes_key wsSheet 3 [] "   " (by decide) (by decide) (by decide)
    (by decide) (by simp)

/-- C10: when the adUnits of a mapping is empty, the sampling step of
the summary (indexing position 0 of the key list) faults instead of
completing; there is no guard for the empty case. -/
theorem C10_empty_sample_faults (m : Mapping) (h : m.adUnits = []) :
    firstAdUnitSample m = Option.none := by
  simp [firstAdUnitSample, h]

/-- Witness for C10 at the mapping produced from the empty PLACEMENTS
sheet. -/
theorem C10_witness :
    mEmpty.adUnits = [] ∧ firstAdUnitSample mEmpty = Option.none :=
  ⟨rfl, C10_empty_sample_faults mEmpty rfl⟩

end Convert
